import Mathlib

/-!
Shallow embedding of the collaborative research-hub core (src/src/App.jsx):
the Paper/Comment data model, the like-toggle transaction, paper edit and
cascade delete, comment add/delete, the paper-snapshot reconciliation and the
comment-snapshot sorting. Firestore documents may lack fields, so `likes`,
`likedBy` and the timestamps are `Option`-valued; JavaScript numbers are
modelled as `Int`. Store collections are modelled as lists of documents and
a `deleteDoc`/`updateDoc` acts on the document with the matching id.
-/

namespace ResearchHub

abbrev UserId := String
abbrev PaperId := String
abbrev CommentId := String

/-- A Paper document (fields written by handleAddPaper / handleUpdatePaper /
handleLikePaper in src/src/App.jsx). Fields that a raw Firestore document may
be missing are Option-valued. -/
structure Paper where
  id : PaperId
  title : String
  content : String
  authorId : UserId
  likes : Option Int
  likedBy : Option (List UserId)
  createdAt : Option Int
  updatedAt : Option Int
deriving Repr, DecidableEq

/-- A Comment document (fields written by handleAddComment in src/src/App.jsx).
`timestamp` holds the seconds of the server timestamp, absent until assigned. -/
structure Comment where
  id : CommentId
  paperId : PaperId
  userId : UserId
  text : String
  timestamp : Option Int
deriving Repr, DecidableEq

/-- Error raised inside the like transaction: the code throws
"Document does not exist!" when the paper is gone (line 312). -/
inductive StoreErr where
  | notFound
deriving Repr, DecidableEq

/-- JavaScript String.prototype.trim: drop leading and trailing whitespace.
Defined directly on the character list so that it reduces by evaluation. -/
def jsTrim (s : String) : String :=
  ⟨((s.data.dropWhile Char.isWhitespace).reverse.dropWhile Char.isWhitespace).reverse⟩

/-- The body of the runTransaction callback in handleLikePaper
(src/src/App.jsx lines 315-343), applied to the paper read inside the
transaction. `data.likedBy || []` and `data.likes || 0` become `getD`;
`includes` is list membership; `Math.max` is `max`; the inner
re-check `if (!likedBy.includes(userId))` of the else branch is kept. -/
def toggleLikeBody (userId : UserId) (data : Paper) : Paper :=
  let likedBy := data.likedBy.getD []
  let isCurrentlyLiked := userId ∈ likedBy
  if isCurrentlyLiked then
    { data with
        likes := some (max 0 (data.likes.getD 0 - 1)),
        likedBy := some (likedBy.filter (fun uid => uid ≠ userId)) }
  else
    if userId ∉ likedBy then
      { data with
          likes := some (data.likes.getD 0 + 1),
          likedBy := some (likedBy ++ [userId]) }
    else
      { data with
          likes := some (data.likes.getD 0),
          likedBy := some likedBy }

/-- handleLikePaper (src/src/App.jsx lines 302-350) at the store level: the
transaction reads the paper document by id, throws notFound when it does not
exist, otherwise rewrites that document with the toggled fields. The result
pairs the surfaced error (if any) with the paper collection after the call,
which is unchanged when the transaction throws. -/
def handleLikePaper (userId : UserId) (paperId : PaperId) (papers : List Paper) :
    Option StoreErr × List Paper :=
  match papers.find? (fun p => p.id = paperId) with
  | none => (some StoreErr.notFound, papers)
  | some _ =>
      (none, papers.map (fun p => if p.id = paperId then toggleLikeBody userId p else p))

/-- The paper payload built by handleAddPaper (src/src/App.jsx lines 262-269):
`likes: 0`, `likedBy: []`, `createdAt: serverTimestamp()`. -/
def handleAddPaperPayload (authorId : UserId) (title content : String)
    (assignedId : PaperId) (now : Int) : Paper :=
  { id := assignedId
    title := jsTrim title
    content := jsTrim content
    authorId := authorId
    likes := some 0
    likedBy := some []
    createdAt := some now
    updatedAt := none }

/-- Unfolding of toggleLikeBody when the caller is absent from likedBy:
the like branch appends the caller and increments the count. -/
theorem toggleLikeBody_of_not_mem (userId : UserId) (data : Paper)
    (h : userId ∉ data.likedBy.getD []) :
    toggleLikeBody userId data =
      { data with
          likes := some (data.likes.getD 0 + 1),
          likedBy := some (data.likedBy.getD [] ++ [userId]) } := by
  unfold toggleLikeBody
  simp [h]

/-- Unfolding of toggleLikeBody when the caller is a member of likedBy:
the unlike branch filters the caller out and decrements with a floor of 0. -/
theorem toggleLikeBody_of_mem (userId : UserId) (data : Paper)
    (h : userId ∈ data.likedBy.getD []) :
    toggleLikeBody userId data =
      { data with
          likes := some (max 0 (data.likes.getD 0 - 1)),
          likedBy := some ((data.likedBy.getD []).filter (fun uid => uid ≠ userId)) } := by
  unfold toggleLikeBody
  simp [h]

/-- Folding toggleLikeBody over a duplicate-free list of callers, none of whom
appears in the accumulated likedBy, appends all of them and adds their number
to the like count. -/
theorem foldl_toggleLikeBody (callers : List UserId) :
    ∀ (acc : List UserId) (n : Int) (p : Paper),
      p.likes = some n → p.likedBy = some acc →
      callers.Nodup → (∀ c ∈ callers, c ∉ acc) →
      (callers.foldl (fun q c => toggleLikeBody c q) p).likes =
          some (n + callers.length) ∧
      (callers.foldl (fun q c => toggleLikeBody c q) p).likedBy =
          some (acc ++ callers) := by
  induction callers with
  | nil =>
      intro acc n p hl hlb _ _
      simp [hl, hlb]
  | cons c cs ih =>
      intro acc n p hl hlb hnd hdisj
      have hcn : c ∉ acc := hdisj c (by simp)
      have hm : c ∉ p.likedBy.getD [] := by rw [hlb]; simpa using hcn
      have h1 : (toggleLikeBody c p).likes = some (n + 1) := by
        rw [toggleLikeBody_of_not_mem c p hm]; simp [hl]
      have h2 : (toggleLikeBody c p).likedBy = some (acc ++ [c]) := by
        rw [toggleLikeBody_of_not_mem c p hm]; simp [hlb]
      have hnd' : cs.Nodup := hnd.of_cons
      have hdisj' : ∀ d ∈ cs, d ∉ acc ++ [c] := by
        intro d hd
        simp only [List.mem_append, List.mem_singleton]
        rintro (hda | rfl)
        · exact hdisj d (List.mem_cons_of_mem c hd) hda
        · exact (List.nodup_cons.mp hnd).1 hd
      obtain ⟨ha, hb⟩ := ih (acc ++ [c]) (n + 1) (toggleLikeBody c p) h1 h2 hnd' hdisj'
      constructor
      · rw [List.foldl_cons, ha]
        congr 1
        simp only [List.length_cons]
        push_cast
        ring
      · rw [List.foldl_cons, hb]
        simp

/-- C1: starting from a fresh paper (likes = 0, likedBy = []), executing the
toggleLike transaction once per caller, in any serialization order of N
distinct callers (the store serializes concurrent transactions, so every
interleaving is some order), ends with likes = N and likedBy containing
exactly those N identities. -/
theorem like_convergence (callers : List UserId) (p : Paper)
    (hnd : callers.Nodup) (h0 : p.likes = some 0) (he : p.likedBy = some []) :
    (callers.foldl (fun q c => toggleLikeBody c q) p).likes =
        some (callers.length : Int) ∧
    ∃ l, (callers.foldl (fun q c => toggleLikeBody c q) p).likedBy = some l ∧
      l.Nodup ∧ ∀ u, u ∈ l ↔ u ∈ callers := by
  obtain ⟨ha, hb⟩ :=
    foldl_toggleLikeBody callers [] 0 p h0 he hnd (by simp)
  refine ⟨by simpa using ha, callers, by simpa using hb, hnd, fun u => Iff.rfl⟩

/-- Witness: three distinct callers on a concrete fresh paper end with
likes = 3 and likedBy holding exactly those three identities. -/
theorem like_convergence_witness :
    (["ua", "ub", "uc"].foldl (fun q c => toggleLikeBody c q)
        { id := "p1", title := "T", content := "C", authorId := "ua",
          likes := some 0, likedBy := some [], createdAt := none,
          updatedAt := none : Paper }).likes = some ((["ua", "ub", "uc"] : List UserId).length : Int) ∧
    ∃ l, (["ua", "ub", "uc"].foldl (fun q c => toggleLikeBody c q)
        { id := "p1", title := "T", content := "C", authorId := "ua",
          likes := some 0, likedBy := some [], createdAt := none,
          updatedAt := none : Paper }).likedBy = some l ∧
      l.Nodup ∧ ∀ u, u ∈ l ↔ u ∈ (["ua", "ub", "uc"] : List UserId) :=
  like_convergence ["ua", "ub", "uc"] _ (by decide) rfl rfl

/-- C2: the toggleLike transaction fails with notFound and leaves the paper
collection unchanged when the paper does not exist; otherwise it rewrites the
target document in one update: if the caller is in likedBy it removes the
caller and decrements with a floor of zero (the resulting count is never
negative), and if absent it appends the caller exactly once (count 1, no
double-counting) and increments. -/
theorem toggleLike_transaction_spec (userId : UserId) (paperId : PaperId)
    (papers : List Paper) :
    (papers.find? (fun p => p.id = paperId) = none →
        handleLikePaper userId paperId papers = (some StoreErr.notFound, papers)) ∧
    (∀ p, papers.find? (fun q => q.id = paperId) = some p →
      (handleLikePaper userId paperId papers).1 = none ∧
      (handleLikePaper userId paperId papers).2 =
        papers.map (fun q => if q.id = paperId then toggleLikeBody userId q else q) ∧
      (userId ∈ p.likedBy.getD [] →
        (toggleLikeBody userId p).likedBy =
            some ((p.likedBy.getD []).filter (fun uid => uid ≠ userId)) ∧
        userId ∉ (toggleLikeBody userId p).likedBy.getD [] ∧
        (toggleLikeBody userId p).likes = some (max 0 (p.likes.getD 0 - 1)) ∧
        0 ≤ (toggleLikeBody userId p).likes.getD 0) ∧
      (userId ∉ p.likedBy.getD [] →
        (toggleLikeBody userId p).likedBy = some (p.likedBy.getD [] ++ [userId]) ∧
        ((toggleLikeBody userId p).likedBy.getD []).count userId = 1 ∧
        (toggleLikeBody userId p).likes = some (p.likes.getD 0 + 1))) := by
  constructor
  · intro hnone
    unfold handleLikePaper
    rw [hnone]
  · intro p hfind
    refine ⟨?_, ?_, ?_, ?_⟩
    · unfold handleLikePaper
      rw [hfind]
    · unfold handleLikePaper
      rw [hfind]
    · intro hmem
      rw [toggleLikeBody_of_mem userId p hmem]
      refine ⟨rfl, ?_, rfl, ?_⟩
      · simp
      · simp [le_max_left]
    · intro hmem
      rw [toggleLikeBody_of_not_mem userId p hmem]
      refine ⟨rfl, ?_, rfl⟩
      simp [List.count_append, List.count_eq_zero.mpr hmem]

/-- Witness: on an empty collection the transaction reports notFound with the
collection unchanged, and on a concrete paper not yet liked by the caller the
toggle appends the caller once and increments the count to 1. -/
theorem toggleLike_transaction_spec_witness :
    handleLikePaper "ub" "p1" [] = (some StoreErr.notFound, []) ∧
    ((toggleLikeBody "ub"
        { id := "p1", title := "T", content := "C", authorId := "ua",
          likes := some 0, likedBy := some [], createdAt := none,
          updatedAt := none : Paper }).likedBy = some ([] ++ ["ub"]) ∧
      ((toggleLikeBody "ub"
        { id := "p1", title := "T", content := "C", authorId := "ua",
          likes := some 0, likedBy := some [], createdAt := none,
          updatedAt := none : Paper }).likedBy.getD []).count "ub" = 1 ∧
      (toggleLikeBody "ub"
        { id := "p1", title := "T", content := "C", authorId := "ua",
          likes := some 0, likedBy := some [], createdAt := none,
          updatedAt := none : Paper }).likes = some (0 + 1)) := by
  constructor
  · exact (toggleLike_transaction_spec "ub" "p1" []).1 rfl
  · have h := (toggleLike_transaction_spec "ub" "p1"
      [{ id := "p1", title := "T", content := "C", authorId := "ua",
         likes := some 0, likedBy := some [], createdAt := none,
         updatedAt := none : Paper }]).2
      { id := "p1", title := "T", content := "C", authorId := "ua",
        likes := some 0, likedBy := some [], createdAt := none,
        updatedAt := none : Paper } (by decide)
    simpa using h.2.2.2 (by decide)

/-- Removing the single occurrence of a member from a duplicate-free list
shortens it by exactly one. -/
theorem length_filter_ne_of_nodup {l : List UserId} {u : UserId}
    (hnd : l.Nodup) (hu : u ∈ l) :
    (l.filter (fun x => x ≠ u)).length + 1 = l.length := by
  induction l with
  | nil => cases hu
  | cons a t ih =>
      by_cases hau : a = u
      · subst hau
        have hnt : a ∉ t := (List.nodup_cons.mp hnd).1
        have hself : t.filter (fun x => x ≠ a) = t := by
          refine List.filter_eq_self.mpr ?_
          intro x hx
          simp only [ne_eq, decide_eq_true_eq]
          rintro rfl
          exact hnt hx
        simp [hself]
        intro x hx
        rintro rfl
        exact hnt hx
      · have ht : u ∈ t := by
          rcases List.mem_cons.mp hu with h | h
          · exact absurd h.symm hau
          · exact h
        have hrec := ih (List.nodup_cons.mp hnd).2 ht
        have hfil : (a :: t).filter (fun x => x ≠ u) =
            a :: t.filter (fun x => x ≠ u) := by
          simp [List.filter_cons, hau]
        rw [hfil]
        simp only [List.length_cons]
        omega

/-- C3: handleAddPaper establishes likes = 0 with empty likedBy, and
toggleLikeBody transforms likes and likedBy together, so both committed
mutations preserve the invariant likes = |likedBy| on every paper state whose
likedBy has no duplicates (and they preserve duplicate-freeness itself). -/
theorem likes_card_invariant :
    (∀ (authorId : UserId) (title content : String) (assignedId : PaperId) (now : Int),
      ((handleAddPaperPayload authorId title content assignedId now).likedBy.getD []).Nodup ∧
      (handleAddPaperPayload authorId title content assignedId now).likes.getD 0 =
        (((handleAddPaperPayload authorId title content assignedId now).likedBy.getD []).length : Int)) ∧
    (∀ (p : Paper) (userId : UserId),
      (p.likedBy.getD []).Nodup →
      p.likes.getD 0 = ((p.likedBy.getD []).length : Int) →
      ((toggleLikeBody userId p).likedBy.getD []).Nodup ∧
      (toggleLikeBody userId p).likes.getD 0 =
        (((toggleLikeBody userId p).likedBy.getD []).length : Int)) := by
  constructor
  · intro authorId title content assignedId now
    exact ⟨List.nodup_nil, rfl⟩
  · intro p userId hnd hcard
    by_cases hm : userId ∈ p.likedBy.getD []
    · rw [toggleLikeBody_of_mem userId p hm]
      have hlen := length_filter_ne_of_nodup hnd hm
      refine ⟨by simpa using hnd.filter _, ?_⟩
      simp only [Option.getD_some]
      rw [hcard]
      rw [max_eq_right]
      · zify at hlen
        omega
      · zify at hlen
        omega
    · rw [toggleLikeBody_of_not_mem userId p hm]
      constructor
      · simp only [Option.getD_some]
        rw [List.nodup_append]
        exact ⟨hnd, List.nodup_singleton userId, by simpa [List.disjoint_right] using hm⟩
      · simp only [Option.getD_some, List.length_append, List.length_singleton]
        rw [hcard]
        push_cast
        ring

/-- Witness: the invariant holds at the addPaper payload and is carried by a
toggle on a concrete one-liker paper. -/
theorem likes_card_invariant_witness :
    (((handleAddPaperPayload "ua" "T" "C" "p1" 5).likedBy.getD []).Nodup ∧
      (handleAddPaperPayload "ua" "T" "C" "p1" 5).likes.getD 0 =
        (((handleAddPaperPayload "ua" "T" "C" "p1" 5).likedBy.getD []).length : Int)) ∧
    (((toggleLikeBody "ub"
        { id := "p1", title := "T", content := "C", authorId := "ua",
          likes := some 1, likedBy := some ["uc"], createdAt := none,
          updatedAt := none : Paper }).likedBy.getD []).Nodup ∧
      (toggleLikeBody "ub"
        { id := "p1", title := "T", content := "C", authorId := "ua",
          likes := some 1, likedBy := some ["uc"], createdAt := none,
          updatedAt := none : Paper }).likes.getD 0 =
        (((toggleLikeBody "ub"
        { id := "p1", title := "T", content := "C", authorId := "ua",
          likes := some 1, likedBy := some ["uc"], createdAt := none,
          updatedAt := none : Paper }).likedBy.getD []).length : Int)) :=
  ⟨likes_card_invariant.1 "ua" "T" "C" "p1" 5,
   likes_card_invariant.2
     { id := "p1", title := "T", content := "C", authorId := "ua",
       likes := some 1, likedBy := some ["uc"], createdAt := none,
       updatedAt := none : Paper } "ub" (by decide) (by decide)⟩

/-- Toggling by a caller flips that same caller's membership in likedBy. -/
theorem mem_toggleLikeBody_self (u : UserId) (p : Paper) :
    u ∈ (toggleLikeBody u p).likedBy.getD [] ↔ u ∉ p.likedBy.getD [] := by
  by_cases h : u ∈ p.likedBy.getD []
  · rw [toggleLikeBody_of_mem u p h]
    simp [h, List.mem_filter]
  · rw [toggleLikeBody_of_not_mem u p h]
    simp [h]

/-- Toggling preserves a non-negative like count. -/
theorem toggleLikeBody_likes_nonneg (u : UserId) (p : Paper)
    (h : 0 ≤ p.likes.getD 0) : 0 ≤ (toggleLikeBody u p).likes.getD 0 := by
  by_cases hm : u ∈ p.likedBy.getD []
  · rw [toggleLikeBody_of_mem u p hm]
    simp [le_max_left]
  · rw [toggleLikeBody_of_not_mem u p hm]
    simp only [Option.getD_some]
    linarith

/-- C4: starting from a paper whose likedBy does not hold the caller and whose
like count is non-negative, n sequential toggles by that one caller leave the
caller present exactly when n is odd and absent exactly when n is even, and
the like count stays non-negative at every step of the sequence. -/
theorem toggle_parity (p : Paper) (u : UserId) (n : Nat)
    (habs : u ∉ p.likedBy.getD []) (hnn : 0 ≤ p.likes.getD 0) :
    ((u ∈ ((toggleLikeBody u)^[n] p).likedBy.getD []) ↔ Odd n) ∧
    ((u ∉ ((toggleLikeBody u)^[n] p).likedBy.getD []) ↔ Even n) ∧
    (∀ k, 0 ≤ ((toggleLikeBody u)^[k] p).likes.getD 0) := by
  have hmem : ∀ m : Nat, (u ∈ ((toggleLikeBody u)^[m] p).likedBy.getD []) ↔ Odd m := by
    intro m
    induction m with
    | zero => simpa [Nat.odd_iff] using habs
    | succ k ih =>
        rw [Function.iterate_succ_apply', mem_toggleLikeBody_self, ih,
          Nat.odd_add_one, Nat.not_odd_iff_even]
  refine ⟨hmem n, ?_, ?_⟩
  · rw [hmem n, Nat.not_odd_iff_even]
  · intro k
    induction k with
    | zero => simpa using hnn
    | succ j ih =>
        rw [Function.iterate_succ_apply']
        exact toggleLikeBody_likes_nonneg u _ ih

/-- Witness: three toggles on a concrete fresh paper leave the caller present
(3 is odd), and the like counts along the way are non-negative. -/
theorem toggle_parity_witness :
    (("ua" ∈ ((toggleLikeBody "ua")^[3]
        { id := "p1", title := "T", content := "C", authorId := "ua",
          likes := some 0, likedBy := some [], createdAt := none,
          updatedAt := none : Paper }).likedBy.getD []) ↔ Odd 3) ∧
    (("ua" ∉ ((toggleLikeBody "ua")^[3]
        { id := "p1", title := "T", content := "C", authorId := "ua",
          likes := some 0, likedBy := some [], createdAt := none,
          updatedAt := none : Paper }).likedBy.getD []) ↔ Even 3) ∧
    (∀ k, 0 ≤ ((toggleLikeBody "ua")^[k]
        { id := "p1", title := "T", content := "C", authorId := "ua",
          likes := some 0, likedBy := some [], createdAt := none,
          updatedAt := none : Paper }).likes.getD 0) :=
  toggle_parity
    { id := "p1", title := "T", content := "C", authorId := "ua",
      likes := some 0, likedBy := some [], createdAt := none,
      updatedAt := none : Paper } "ua" 3 (by decide) (by decide)

/-- Sort key of a comment used by the comments onSnapshot handler (line 245):
`a.timestamp?.seconds || 0`, i.e. the timestamp seconds with 0 for a missing
timestamp. -/
def tsKey (c : Comment) : Int := c.timestamp.getD 0

/-- The comparison induced by the comparator
`(a, b) => (a.timestamp?.seconds || 0) - (b.timestamp?.seconds || 0)`. -/
def commentsLe (a b : Comment) : Prop := tsKey a ≤ tsKey b

instance : DecidableRel commentsLe := fun _ _ => Int.decLe _ _

instance : IsTotal Comment commentsLe := ⟨fun a b => le_total (tsKey a) (tsKey b)⟩

instance : IsTrans Comment commentsLe := ⟨fun _ _ _ hab hbc => le_trans hab hbc⟩

/-- The comments onSnapshot handler (src/src/App.jsx lines 239-247) sorts the
fetched comments with a stable sort under the timestamp comparator; a stable
sort by a total preorder is exactly insertion sort on that preorder. -/
def commentsOnSnapshot (fetched : List Comment) : List Comment :=
  List.insertionSort commentsLe fetched

/-- Small builders for concrete documents used in closed witness statements. -/
def mkComment (id paperId userId text : String) (timestamp : Option Int) : Comment :=
  { id := id, paperId := paperId, userId := userId, text := text,
    timestamp := timestamp }

def mkPaper (id title content authorId : String)
    (likes : Option Int) (likedBy : Option (List UserId)) : Paper :=
  { id := id, title := title, content := content, authorId := authorId,
    likes := likes, likedBy := likedBy, createdAt := none, updatedAt := none }

/-- C9: every comment snapshot is displayed sorted by ascending timestamp (the
displayed list is a permutation of the snapshot sorted under the timestamp
key), a missing timestamp is treated as time zero, and hence no comment with a
positive timestamp ever precedes a comment missing its timestamp. -/
theorem comment_ordering (fetched : List Comment) :
    List.Sorted commentsLe (commentsOnSnapshot fetched) ∧
    List.Perm (commentsOnSnapshot fetched) fetched ∧
    (∀ c : Comment, c.timestamp = none → tsKey c = 0) ∧
    (∀ i j : Fin (commentsOnSnapshot fetched).length, i < j →
      0 < tsKey ((commentsOnSnapshot fetched).get i) →
      ((commentsOnSnapshot fetched).get j).timestamp ≠ none) := by
  refine ⟨List.sorted_insertionSort commentsLe fetched,
    List.perm_insertionSort commentsLe fetched, ?_, ?_⟩
  · intro c h
    simp [tsKey, h]
  · intro i j hij hpos hnone
    have hle : commentsLe ((commentsOnSnapshot fetched).get i)
        ((commentsOnSnapshot fetched).get j) :=
      (List.sorted_insertionSort commentsLe fetched).rel_get_of_lt hij
    have hz : tsKey ((commentsOnSnapshot fetched).get j) = 0 := by
      unfold tsKey
      rw [hnone]
      rfl
    unfold commentsLe at hle
    rw [hz] at hle
    linarith

/-- Witness: timestamps [3, 1, 2] come out in the order [1, 2, 3], and the
sorted/permutation facts hold on that concrete snapshot. -/
theorem comment_ordering_witness :
    (List.Sorted commentsLe (commentsOnSnapshot
        [mkComment "c1" "p1" "ua" "x" (some 3),
         mkComment "c2" "p1" "ub" "y" (some 1),
         mkComment "c3" "p1" "uc" "z" (some 2)]) ∧
      List.Perm (commentsOnSnapshot
        [mkComment "c1" "p1" "ua" "x" (some 3),
         mkComment "c2" "p1" "ub" "y" (some 1),
         mkComment "c3" "p1" "uc" "z" (some 2)])
        [mkComment "c1" "p1" "ua" "x" (some 3),
         mkComment "c2" "p1" "ub" "y" (some 1),
         mkComment "c3" "p1" "uc" "z" (some 2)]) ∧
    commentsOnSnapshot
        [mkComment "c1" "p1" "ua" "x" (some 3),
         mkComment "c2" "p1" "ub" "y" (some 1),
         mkComment "c3" "p1" "uc" "z" (some 2)] =
      [mkComment "c2" "p1" "ub" "y" (some 1),
       mkComment "c3" "p1" "uc" "z" (some 2),
       mkComment "c1" "p1" "ua" "x" (some 3)] :=
  ⟨⟨(comment_ordering _).1, (comment_ordering _).2.1⟩, by decide⟩

/-- C10: the toggle transaction is total on papers whose likes or likedBy
fields are missing: a present paper never makes the transaction fail whatever
its fields, and the first toggle on a paper with both fields missing commits
likes = 1 and likedBy = [caller]. -/
theorem toggle_total_on_missing_fields (u : UserId) (p : Paper)
    (hlikes : p.likes = none) (hlikedBy : p.likedBy = none) :
    (toggleLikeBody u p).likes = some 1 ∧
    (toggleLikeBody u p).likedBy = some [u] ∧
    (∀ (papers : List Paper) (paperId : PaperId),
      papers.find? (fun q => q.id = paperId) ≠ none →
      (handleLikePaper u paperId papers).1 = none) := by
  have hget : p.likedBy.getD [] = [] := by rw [hlikedBy]; rfl
  have habs : u ∉ p.likedBy.getD [] := by rw [hget]; simp
  refine ⟨?_, ?_, ?_⟩
  · rw [toggleLikeBody_of_not_mem u p habs, hlikes]
    norm_num
  · rw [toggleLikeBody_of_not_mem u p habs, hget]
    simp
  · intro papers paperId hfound
    unfold handleLikePaper
    cases hc : papers.find? (fun q => q.id = paperId) with
    | none => exact absurd hc hfound
    | some q => rfl

/-- Witness: a concrete paper with both fields absent; one toggle commits
likes = 1 and likedBy = [caller], and the lookup-success path returns no
error. -/
theorem toggle_total_on_missing_fields_witness :
    (toggleLikeBody "ua" (mkPaper "p1" "T" "C" "ua" none none)).likes = some 1 ∧
    (toggleLikeBody "ua" (mkPaper "p1" "T" "C" "ua" none none)).likedBy =
      some ["ua"] ∧
    (∀ (papers : List Paper) (paperId : PaperId),
      papers.find? (fun q => q.id = paperId) ≠ none →
      (handleLikePaper "ua" paperId papers).1 = none) :=
  toggle_total_on_missing_fields "ua" (mkPaper "p1" "T" "C" "ua" none none) rfl rfl

/-- Result of handleUpdatePaper: the paper collection together with the
isEditing flag after the call. -/
structure UpdateResult where
  papers : List Paper
  isEditing : Bool
deriving Repr, DecidableEq

/-- handleUpdatePaper (src/src/App.jsx lines 284-299). The guard checks db,
an authenticated user, a selected paper and non-empty trimmed fields; when it
passes, updateDoc rewrites title, content and updatedAt of the selected
document and edit mode is left. The guard holds no comparison of the caller
against the selected paper's authorId. -/
def handleUpdatePaper (db : Bool) (userId : Option UserId)
    (selectedPaper : Option Paper) (editTitle editContent : String)
    (isEditing : Bool) (now : Int) (papers : List Paper) : UpdateResult :=
  match db, userId, selectedPaper with
  | true, some _, some sel =>
      if jsTrim editTitle = "" ∨ jsTrim editContent = "" then
        { papers := papers, isEditing := isEditing }
      else
        { papers := papers.map (fun p =>
            if p.id = sel.id then
              { p with title := jsTrim editTitle, content := jsTrim editContent,
                       updatedAt := some now }
            else p),
          isEditing := false }
  | _, _, _ => { papers := papers, isEditing := isEditing }

/-- Outcomes of the asynchronous store calls made by executeDeletePaper:
whether the deleteDoc of the paper resolves, whether the getDocs comment query
resolves, and which individual comment deleteDoc calls resolve. -/
structure DeleteOutcome where
  paperDeleteOk : Bool
  commentsQueryOk : Bool
  commentDeleteOk : CommentId → Bool

/-- State after executeDeletePaper: both collections, the focus, the error
banner, the modal flag, the comment deletions that were issued, and the issued
deletions that failed with nobody awaiting them (the forEach callback is
async and its promise is dropped, so a failure there is an unhandled
rejection, caught by no try/catch of the coordinator). -/
structure DeleteResult where
  papers : List Paper
  comments : List Comment
  selectedPaper : Option Paper
  dbError : Option String
  showDeleteConfirmation : Bool
  attempted : List CommentId
  unhandledRejections : List CommentId
deriving Repr, DecidableEq

/-- executeDeletePaper (src/src/App.jsx lines 360-388). Guard: db, user,
selected paper and isPaperAuthor (userId === selectedPaper.authorId), else
only the modal closes. Then: (1) await deleteDoc(paper) — a rejection lands
in the catch, which sets dbError and skips the rest; (2) await getDocs of the
comments with this paperId — a rejection likewise lands in the catch, after
the paper deletion already committed; (3) forEach issues one deleteDoc per
matched comment without awaiting any of them; (4) setSelectedPaper(null);
finally the modal closes on every path. -/
def executeDeletePaper (db : Bool) (userId : Option UserId)
    (selectedPaper : Option Paper) (dbError : Option String)
    (out : DeleteOutcome) (papers : List Paper) (comments : List Comment) :
    DeleteResult :=
  match db, userId, selectedPaper with
  | true, some u, some sp =>
      if u = sp.authorId then
        if out.paperDeleteOk then
          if out.commentsQueryOk then
            { papers := papers.filter (fun p => p.id ≠ sp.id),
              comments := comments.filter
                (fun c => !(decide (c.paperId = sp.id) && out.commentDeleteOk c.id)),
              selectedPaper := none,
              dbError := dbError,
              showDeleteConfirmation := false,
              attempted :=
                (comments.filter (fun c => c.paperId = sp.id)).map (fun c => c.id),
              unhandledRejections :=
                ((comments.filter (fun c => c.paperId = sp.id)).filter
                  (fun c => !out.commentDeleteOk c.id)).map (fun c => c.id) }
          else
            { papers := papers.filter (fun p => p.id ≠ sp.id),
              comments := comments,
              selectedPaper := selectedPaper,
              dbError := some "Failed to delete paper",
              showDeleteConfirmation := false,
              attempted := [],
              unhandledRejections := [] }
        else
          { papers := papers, comments := comments,
            selectedPaper := selectedPaper,
            dbError := some "Failed to delete paper",
            showDeleteConfirmation := false,
            attempted := [], unhandledRejections := [] }
      else
        { papers := papers, comments := comments,
          selectedPaper := selectedPaper, dbError := dbError,
          showDeleteConfirmation := false,
          attempted := [], unhandledRejections := [] }
  | _, _, _ =>
      { papers := papers, comments := comments,
        selectedPaper := selectedPaper, dbError := dbError,
        showDeleteConfirmation := false,
        attempted := [], unhandledRejections := [] }

/-- handleDeleteComment (src/src/App.jsx lines 415-425): after the db and
authentication guard it deletes the addressed comment document outright; no
field of the comment, in particular not its userId, is consulted. -/
def handleDeleteComment (db : Bool) (userId : Option UserId)
    (commentId : CommentId) (comments : List Comment) : List Comment :=
  match db, userId with
  | true, some _ => comments.filter (fun c => c.id ≠ commentId)
  | _, _ => comments

/-- The isAuthor gate of CommentItem (src/src/App.jsx line 64): the delete
control renders only when the session user equals the comment's userId. -/
def commentItemShowsDelete (currentUserId : Option UserId) (c : Comment) : Bool :=
  decide (currentUserId = some c.userId)

/-- Counterexample to C5: the caller mallory differs from the author alice,
yet handleUpdatePaper commits the new title, content and updatedAt to the
store — the operation carries no authorization check, so a non-author edit
does mutate the store rather than failing with Forbidden. -/
theorem authorization_counterexample :
    ("mallory" : UserId) ≠ ("alice" : UserId) ∧
    (handleUpdatePaper true (some "mallory")
        (some (mkPaper "p1" "T" "C" "alice" (some 0) (some [])))
        "Hacked" "D" false 7
        [mkPaper "p1" "T" "C" "alice" (some 0) (some [])]).papers =
      [{ id := "p1", title := "Hacked", content := "D", authorId := "alice",
         likes := some 0, likedBy := some [], createdAt := none,
         updatedAt := some 7 }] ∧
    (handleUpdatePaper true (some "mallory")
        (some (mkPaper "p1" "T" "C" "alice" (some 0) (some [])))
        "Hacked" "D" false 7
        [mkPaper "p1" "T" "C" "alice" (some 0) (some [])]).papers ≠
      [mkPaper "p1" "T" "C" "alice" (some 0) (some [])] := by
  refine ⟨by decide, by decide, by decide⟩

/-- C5 (amended): deletePaper invoked by a caller other than the author
performs no store mutation, silently — the modal closes and no error of any
kind is surfaced; editPaper, by contrast, carries no authorization check at
all: any authenticated caller with non-empty trimmed fields rewrites the
selected document's title, content and updatedAt whether or not they are the
author (author-only editing is enforced only by the UI, which renders the
edit control solely for the author). -/
theorem authorization_amended (u : UserId) (sp : Paper) (dbErr : Option String)
    (out : DeleteOutcome) (papers : List Paper) (comments : List Comment)
    (t c : String) (isEditing : Bool) (now : Int)
    (hne : u ≠ sp.authorId) (ht : jsTrim t ≠ "") (hc : jsTrim c ≠ "") :
    (executeDeletePaper true (some u) (some sp) dbErr out papers comments).papers =
        papers ∧
    (executeDeletePaper true (some u) (some sp) dbErr out papers comments).comments =
        comments ∧
    (executeDeletePaper true (some u) (some sp) dbErr out papers comments).selectedPaper =
        some sp ∧
    (executeDeletePaper true (some u) (some sp) dbErr out papers comments).attempted =
        [] ∧
    (executeDeletePaper true (some u) (some sp) dbErr out papers comments).dbError =
        dbErr ∧
    (handleUpdatePaper true (some u) (some sp) t c isEditing now papers).papers =
      papers.map (fun p =>
        if p.id = sp.id then
          { p with title := jsTrim t, content := jsTrim c, updatedAt := some now }
        else p) := by
  unfold executeDeletePaper handleUpdatePaper
  simp [hne, ht, hc]

/-- Witness for the amended C5 at a concrete non-author caller. -/
theorem authorization_amended_witness :
    (executeDeletePaper true (some "mallory")
        (some (mkPaper "p1" "T" "C" "alice" (some 0) (some []))) none
        { paperDeleteOk := true, commentsQueryOk := true,
          commentDeleteOk := fun _ => true }
        [mkPaper "p1" "T" "C" "alice" (some 0) (some [])]
        [mkComment "c1" "p1" "ub" "x" (some 1)]).papers =
      [mkPaper "p1" "T" "C" "alice" (some 0) (some [])] ∧
    (executeDeletePaper true (some "mallory")
        (some (mkPaper "p1" "T" "C" "alice" (some 0) (some []))) none
        { paperDeleteOk := true, commentsQueryOk := true,
          commentDeleteOk := fun _ => true }
        [mkPaper "p1" "T" "C" "alice" (some 0) (some [])]
        [mkComment "c1" "p1" "ub" "x" (some 1)]).comments =
      [mkComment "c1" "p1" "ub" "x" (some 1)] ∧
    (executeDeletePaper true (some "mallory")
        (some (mkPaper "p1" "T" "C" "alice" (some 0) (some []))) none
        { paperDeleteOk := true, commentsQueryOk := true,
          commentDeleteOk := fun _ => true }
        [mkPaper "p1" "T" "C" "alice" (some 0) (some [])]
        [mkComment "c1" "p1" "ub" "x" (some 1)]).selectedPaper =
      some (mkPaper "p1" "T" "C" "alice" (some 0) (some [])) ∧
    (executeDeletePaper true (some "mallory")
        (some (mkPaper "p1" "T" "C" "alice" (some 0) (some []))) none
        { paperDeleteOk := true, commentsQueryOk := true,
          commentDeleteOk := fun _ => true }
        [mkPaper "p1" "T" "C" "alice" (some 0) (some [])]
        [mkComment "c1" "p1" "ub" "x" (some 1)]).attempted = [] ∧
    (executeDeletePaper true (some "mallory")
        (some (mkPaper "p1" "T" "C" "alice" (some 0) (some []))) none
        { paperDeleteOk := true, commentsQueryOk := true,
          commentDeleteOk := fun _ => true }
        [mkPaper "p1" "T" "C" "alice" (some 0) (some [])]
        [mkComment "c1" "p1" "ub" "x" (some 1)]).dbError = none ∧
    (handleUpdatePaper true (some "mallory")
        (some (mkPaper "p1" "T" "C" "alice" (some 0) (some [])))
        "X" "Y" false 7
        [mkPaper "p1" "T" "C" "alice" (some 0) (some [])]).papers =
      [mkPaper "p1" "T" "C" "alice" (some 0) (some [])].map (fun p =>
        if p.id = (mkPaper "p1" "T" "C" "alice" (some 0) (some [])).id then
          { p with title := jsTrim "X", content := jsTrim "Y",
                   updatedAt := some 7 }
        else p) :=
  authorization_amended "mallory" (mkPaper "p1" "T" "C" "alice" (some 0) (some []))
    none
    { paperDeleteOk := true, commentsQueryOk := true,
      commentDeleteOk := fun _ => true }
    [mkPaper "p1" "T" "C" "alice" (some 0) (some [])]
    [mkComment "c1" "p1" "ub" "x" (some 1)]
    "X" "Y" false 7 (by decide) (by decide) (by decide)

/-- Counterexample to C6: mallory is not the author of alice's comment, yet
handleDeleteComment removes it — the operation never reads the comment's
userId, so a foreign caller's delete succeeds instead of failing. -/
theorem comment_authorization_counterexample :
    ("mallory" : UserId) ≠ ("alice" : UserId) ∧
    handleDeleteComment true (some "mallory") "c1"
        [mkComment "c1" "p1" "alice" "hello" (some 1)] = [] := by
  refine ⟨by decide, by decide⟩

/-- C6 (amended): handleDeleteComment removes the addressed comment for any
authenticated caller, whoever authored it, and is a no-op only when the
session is unauthenticated; the author-only restriction lives solely in the
UI, where CommentItem renders the delete control exactly when the session
user equals the comment's userId. -/
theorem comment_delete_amended :
    (∀ (u : UserId) (commentId : CommentId) (comments : List Comment),
      handleDeleteComment true (some u) commentId comments =
        comments.filter (fun c => c.id ≠ commentId)) ∧
    (∀ (comments : List Comment) (commentId : CommentId),
      handleDeleteComment true none commentId comments = comments) ∧
    (∀ (currentUserId : Option UserId) (c : Comment),
      commentItemShowsDelete currentUserId c = true ↔
        currentUserId = some c.userId) := by
  refine ⟨fun u commentId comments => rfl, fun comments commentId => rfl,
    fun currentUserId c => ?_⟩
  simp [commentItemShowsDelete]

/-- Counterexample to C7: step 1 succeeds (the paper is gone from the
collection) but the comment query rejects, so control jumps to the catch and
setSelectedPaper(null) on line 381 is skipped — the focus is not cleared, so
clearing is not independent of how the comment query resolves. -/
theorem cascade_focus_counterexample :
    (executeDeletePaper true (some "alice")
        (some (mkPaper "p1" "T" "C" "alice" (some 0) (some []))) none
        { paperDeleteOk := true, commentsQueryOk := false,
          commentDeleteOk := fun _ => true }
        [mkPaper "p1" "T" "C" "alice" (some 0) (some [])]
        [mkComment "c1" "p1" "ub" "x" (some 1)]).papers = [] ∧
    (executeDeletePaper true (some "alice")
        (some (mkPaper "p1" "T" "C" "alice" (some 0) (some []))) none
        { paperDeleteOk := true, commentsQueryOk := false,
          commentDeleteOk := fun _ => true }
        [mkPaper "p1" "T" "C" "alice" (some 0) (some [])]
        [mkComment "c1" "p1" "ub" "x" (some 1)]).selectedPaper =
      some (mkPaper "p1" "T" "C" "alice" (some 0) (some [])) := by
  refine ⟨by decide, by decide⟩

/-- C7 (amended): once step 1 (the paper deletion) and the comment query have
both succeeded, the focus is cleared whatever the per-comment deletions do,
every matched comment deletion is still issued and the paper deletion stands;
an individual comment-deletion failure does not abort the cascade, but it is
fire-and-forget — unawaited, so it surfaces only as an unhandled rejection
and is neither caught nor logged by the coordinator, and the error banner is
untouched. If the comment query itself fails, the focus is not cleared (the
paper stays deleted and no comment deletion is issued). -/
theorem cascade_delete_amended (u : UserId) (sp : Paper) (dbErr : Option String)
    (out : DeleteOutcome) (papers : List Paper) (comments : List Comment)
    (hauth : u = sp.authorId) (hp : out.paperDeleteOk = true) :
    (out.commentsQueryOk = true →
      (executeDeletePaper true (some u) (some sp) dbErr out papers comments).selectedPaper =
          none ∧
      (executeDeletePaper true (some u) (some sp) dbErr out papers comments).papers =
          papers.filter (fun p => p.id ≠ sp.id) ∧
      (executeDeletePaper true (some u) (some sp) dbErr out papers comments).attempted =
          (comments.filter (fun c => c.paperId = sp.id)).map (fun c => c.id) ∧
      (executeDeletePaper true (some u) (some sp) dbErr out papers comments).unhandledRejections =
          ((comments.filter (fun c => c.paperId = sp.id)).filter
            (fun c => !out.commentDeleteOk c.id)).map (fun c => c.id) ∧
      (executeDeletePaper true (some u) (some sp) dbErr out papers comments).dbError =
          dbErr) ∧
    (out.commentsQueryOk = false →
      (executeDeletePaper true (some u) (some sp) dbErr out papers comments).selectedPaper =
          some sp ∧
      (executeDeletePaper true (some u) (some sp) dbErr out papers comments).papers =
          papers.filter (fun p => p.id ≠ sp.id) ∧
      (executeDeletePaper true (some u) (some sp) dbErr out papers comments).attempted =
          []) := by
  unfold executeDeletePaper
  constructor
  · intro hq
    simp [hauth, hp, hq]
  · intro hq
    simp [hauth, hp, hq]

/-- Witness for the amended C7: the author deletes a paper with two comments
while the deletion of c2 fails; the focus is cleared, both deletions were
issued, c2 remains only as an unhandled rejection and the paper is gone. -/
theorem cascade_delete_amended_witness :
    (executeDeletePaper true (some "alice")
        (some (mkPaper "p1" "T" "C" "alice" (some 0) (some []))) none
        { paperDeleteOk := true, commentsQueryOk := true,
          commentDeleteOk := fun cid => cid ≠ "c2" }
        [mkPaper "p1" "T" "C" "alice" (some 0) (some [])]
        [mkComment "c1" "p1" "ub" "x" (some 1),
         mkComment "c2" "p1" "uc" "y" (some 2)]).selectedPaper = none ∧
    (executeDeletePaper true (some "alice")
        (some (mkPaper "p1" "T" "C" "alice" (some 0) (some []))) none
        { paperDeleteOk := true, commentsQueryOk := true,
          commentDeleteOk := fun cid => cid ≠ "c2" }
        [mkPaper "p1" "T" "C" "alice" (some 0) (some [])]
        [mkComment "c1" "p1" "ub" "x" (some 1),
         mkComment "c2" "p1" "uc" "y" (some 2)]).papers = [] ∧
    (executeDeletePaper true (some "alice")
        (some (mkPaper "p1" "T" "C" "alice" (some 0) (some []))) none
        { paperDeleteOk := true, commentsQueryOk := true,
          commentDeleteOk := fun cid => cid ≠ "c2" }
        [mkPaper "p1" "T" "C" "alice" (some 0) (some [])]
        [mkComment "c1" "p1" "ub" "x" (some 1),
         mkComment "c2" "p1" "uc" "y" (some 2)]).attempted = ["c1", "c2"] ∧
    (executeDeletePaper true (some "alice")
        (some (mkPaper "p1" "T" "C" "alice" (some 0) (some []))) none
        { paperDeleteOk := true, commentsQueryOk := true,
          commentDeleteOk := fun cid => cid ≠ "c2" }
        [mkPaper "p1" "T" "C" "alice" (some 0) (some [])]
        [mkComment "c1" "p1" "ub" "x" (some 1),
         mkComment "c2" "p1" "uc" "y" (some 2)]).unhandledRejections = ["c2"] ∧
    (executeDeletePaper true (some "alice")
        (some (mkPaper "p1" "T" "C" "alice" (some 0) (some []))) none
        { paperDeleteOk := true, commentsQueryOk := true,
          commentDeleteOk := fun cid => cid ≠ "c2" }
        [mkPaper "p1" "T" "C" "alice" (some 0) (some [])]
        [mkComment "c1" "p1" "ub" "x" (some 1),
         mkComment "c2" "p1" "uc" "y" (some 2)]).dbError = none := by
  have h := (cascade_delete_amended "alice"
    (mkPaper "p1" "T" "C" "alice" (some 0) (some [])) none
    { paperDeleteOk := true, commentsQueryOk := true,
      commentDeleteOk := fun cid => cid ≠ "c2" }
    [mkPaper "p1" "T" "C" "alice" (some 0) (some [])]
    [mkComment "c1" "p1" "ub" "x" (some 1),
     mkComment "c2" "p1" "uc" "y" (some 2)] rfl rfl).1 rfl
  exact ⟨h.1, h.2.1.trans (by decide), h.2.2.1.trans (by decide),
    h.2.2.2.1.trans (by decide), h.2.2.2.2⟩

/-- The client state touched by the papers onSnapshot handler and the
comments subscription effect. -/
structure AppState where
  papers : List Paper
  selectedPaper : Option Paper
  comments : List Comment
  isEditing : Bool
  dbError : Option String
deriving Repr, DecidableEq

/-- The papers onSnapshot handler (src/src/App.jsx lines 200-221): replace the
paper list wholesale, clear the error banner, and if a paper is focused look
its id up in the snapshot — found: refresh the focus with the snapshot copy;
absent: clear the focus. Nothing here touches isEditing. -/
def papersOnSnapshot (fetched : List Paper) (st : AppState) : AppState :=
  let st1 := { st with papers := fetched, dbError := none }
  match st.selectedPaper with
  | none => st1
  | some sel =>
      match fetched.find? (fun p => p.id = sel.id) with
      | some updatedPaper => { st1 with selectedPaper := some updatedPaper }
      | none => { st1 with selectedPaper := none }

/-- The comments useEffect (src/src/App.jsx lines 227-254): with no selected
paper the comment list is reset to empty; with one selected it (re)subscribes
and leaves the list to the next comment snapshot. -/
def commentsSubscriptionEffect (st : AppState) : AppState :=
  match st.selectedPaper with
  | none => { st with comments := [] }
  | some _ => st

/-- One full reconciliation round: the papers snapshot handler followed by the
comments effect reacting to the possibly changed selection. -/
def paperSnapshotStep (fetched : List Paper) (st : AppState) : AppState :=
  commentsSubscriptionEffect (papersOnSnapshot fetched st)

/-- Counterexample to C8: the focused paper is absent from the incoming
snapshot while edit mode is on; the handler clears the focus and the comment
view resets, but isEditing stays true — the edit-mode part of the dependent
state is not reset. -/
theorem focus_reconciliation_counterexample :
    (paperSnapshotStep []
        { papers := [mkPaper "p1" "T" "C" "alice" (some 0) (some [])],
          selectedPaper := some (mkPaper "p1" "T" "C" "alice" (some 0) (some [])),
          comments := [mkComment "c1" "p1" "ub" "x" (some 1)],
          isEditing := true, dbError := none }).selectedPaper = none ∧
    (paperSnapshotStep []
        { papers := [mkPaper "p1" "T" "C" "alice" (some 0) (some [])],
          selectedPaper := some (mkPaper "p1" "T" "C" "alice" (some 0) (some [])),
          comments := [mkComment "c1" "p1" "ub" "x" (some 1)],
          isEditing := true, dbError := none }).isEditing = true := by
  refine ⟨by decide, by decide⟩

/-- C8 (amended): on every paper snapshot with a focus set, if the focused id
appears in the snapshot the focus data is replaced by the snapshot copy
(found by the same id, an element of the snapshot); if it is absent the focus
is cleared and the comment view is reset to empty by the comment subscription
effect, while the edit-mode flag is left exactly as it was. -/
theorem focus_reconciliation_amended (fetched : List Paper) (st : AppState)
    (sel : Paper) (hsel : st.selectedPaper = some sel) :
    (∀ updatedPaper, fetched.find? (fun p => p.id = sel.id) = some updatedPaper →
      (paperSnapshotStep fetched st).selectedPaper = some updatedPaper ∧
      updatedPaper.id = sel.id ∧ updatedPaper ∈ fetched ∧
      (paperSnapshotStep fetched st).papers = fetched) ∧
    (fetched.find? (fun p => p.id = sel.id) = none →
      (paperSnapshotStep fetched st).selectedPaper = none ∧
      (paperSnapshotStep fetched st).comments = [] ∧
      (paperSnapshotStep fetched st).isEditing = st.isEditing ∧
      (paperSnapshotStep fetched st).papers = fetched) := by
  constructor
  · intro updatedPaper hfind
    have hid : updatedPaper.id = sel.id := by
      have := List.find?_some hfind
      simpa using this
    have hmem : updatedPaper ∈ fetched := List.mem_of_find?_eq_some hfind
    refine ⟨?_, hid, hmem, ?_⟩
    · simp [paperSnapshotStep, papersOnSnapshot, commentsSubscriptionEffect,
        hsel, hfind]
    · simp [paperSnapshotStep, papersOnSnapshot, commentsSubscriptionEffect,
        hsel, hfind]
  · intro hfind
    refine ⟨?_, ?_, ?_, ?_⟩ <;>
      simp [paperSnapshotStep, papersOnSnapshot, commentsSubscriptionEffect,
        hsel, hfind]

/-- Witness for the amended C8 on a concrete snapshot that still carries the
focused id with fresher data, and on one that dropped it. -/
theorem focus_reconciliation_amended_witness :
    (∀ updatedPaper,
      [mkPaper "p1" "T2" "C2" "alice" (some 4) (some ["ub"])].find?
          (fun p => p.id = (mkPaper "p1" "T" "C" "alice" (some 0) (some [])).id) =
        some updatedPaper →
      (paperSnapshotStep [mkPaper "p1" "T2" "C2" "alice" (some 4) (some ["ub"])]
          { papers := [mkPaper "p1" "T" "C" "alice" (some 0) (some [])],
            selectedPaper := some (mkPaper "p1" "T" "C" "alice" (some 0) (some [])),
            comments := [], isEditing := false,
            dbError := none }).selectedPaper = some updatedPaper ∧
      updatedPaper.id = (mkPaper "p1" "T" "C" "alice" (some 0) (some [])).id ∧
      updatedPaper ∈ [mkPaper "p1" "T2" "C2" "alice" (some 4) (some ["ub"])] ∧
      (paperSnapshotStep [mkPaper "p1" "T2" "C2" "alice" (some 4) (some ["ub"])]
          { papers := [mkPaper "p1" "T" "C" "alice" (some 0) (some [])],
            selectedPaper := some (mkPaper "p1" "T" "C" "alice" (some 0) (some [])),
            comments := [], isEditing := false,
            dbError := none }).papers =
        [mkPaper "p1" "T2" "C2" "alice" (some 4) (some ["ub"])]) ∧
    ([mkPaper "p1" "T2" "C2" "alice" (some 4) (some ["ub"])].find?
        (fun p => p.id = (mkPaper "p1" "T" "C" "alice" (some 0) (some [])).id) = none →
      (paperSnapshotStep [mkPaper "p1" "T2" "C2" "alice" (some 4) (some ["ub"])]
          { papers := [mkPaper "p1" "T" "C" "alice" (some 0) (some [])],
            selectedPaper := some (mkPaper "p1" "T" "C" "alice" (some 0) (some [])),
            comments := [], isEditing := false,
            dbError := none }).selectedPaper = none ∧
      (paperSnapshotStep [mkPaper "p1" "T2" "C2" "alice" (some 4) (some ["ub"])]
          { papers := [mkPaper "p1" "T" "C" "alice" (some 0) (some [])],
            selectedPaper := some (mkPaper "p1" "T" "C" "alice" (some 0) (some [])),
            comments := [], isEditing := false,
            dbError := none }).comments = [] ∧
      (paperSnapshotStep [mkPaper "p1" "T2" "C2" "alice" (some 4) (some ["ub"])]
          { papers := [mkPaper "p1" "T" "C" "alice" (some 0) (some [])],
            selectedPaper := some (mkPaper "p1" "T" "C" "alice" (some 0) (some [])),
            comments := [], isEditing := false,
            dbError := none }).isEditing =
        ({ papers := [mkPaper "p1" "T" "C" "alice" (some 0) (some [])],
           selectedPaper := some (mkPaper "p1" "T" "C" "alice" (some 0) (some [])),
           comments := [], isEditing := false,
           dbError := none } : AppState).isEditing ∧
      (paperSnapshotStep [mkPaper "p1" "T2" "C2" "alice" (some 4) (some ["ub"])]
          { papers := [mkPaper "p1" "T" "C" "alice" (some 0) (some [])],
            selectedPaper := some (mkPaper "p1" "T" "C" "alice" (some 0) (some [])),
            comments := [], isEditing := false,
            dbError := none }).papers =
        [mkPaper "p1" "T2" "C2" "alice" (some 4) (some ["ub"])]) :=
  focus_reconciliation_amended
    [mkPaper "p1" "T2" "C2" "alice" (some 4) (some ["ub"])]
    { papers := [mkPaper "p1" "T" "C" "alice" (some 0) (some [])],
      selectedPaper := some (mkPaper "p1" "T" "C" "alice" (some 0) (some [])),
      comments := [], isEditing := false, dbError := none }
    (mkPaper "p1" "T" "C" "alice" (some 0) (some [])) rfl

end ResearchHub
